import Mathlib

/-!
Verification of the order-lifecycle core of the compassApiChallenge
backend (Express + Sequelize REST API for a car-rental domain).

The embedding covers:
* the Order data model and its status enumeration, transcribed from the
  swagger schema in `src/src/routes/orders/order.routes.ts` (lines 44-58);
* the five order routes and their middleware pipelines, transcribed from
  `router.post / router.get / router.delete / router.patch` in the same
  file (lines 100-229), mounted at `/api/v1/orders` (`src/index.ts`, line 30);
* the order controllers, the celebrate validation schemas and the
  `authorize` middleware, which are referenced by the router but whose
  source files are not part of the corpus: those are modelled from the
  specification (each such definition says so in its doc comment).
-/

/-- The `status` enumeration of the Order swagger schema, transcribed from
`src/src/routes/orders/order.routes.ts` lines 46-50: the four enumerated
values are the Portuguese strings `Aberto`, `Aprovado`, `Cancelado`,
`Fechado`. -/
def statusEnum : List String := ["Aberto", "Aprovado", "Cancelado", "Fechado"]

/-- The status values as the specification words them in §3 and §6
(`Open`, `Approved`, `Cancelled`, `Closed`).  This definition follows the
spec text, not the source; it exists only to be compared with
`statusEnum`. -/
def specStatusEnum : List String := ["Open", "Approved", "Cancelled", "Closed"]

/-- An Order record, fields as in the swagger `Order` schema
(`src/src/routes/orders/order.routes.ts` lines 20-50): `id`, `customerId`,
`carId`, `startDateTime`, `endDateTime`, `cep`, `status`.  Timestamps are
modelled as integers (epoch instants); `id` is modelled as a counter value
issued by the persistence layer. -/
structure Order where
  id : Nat
  customerId : String
  carId : String
  startDateTime : Int
  endDateTime : Int
  cep : String
  status : String
deriving Repr, DecidableEq

/-- The persistent state the order core operates against: the Customer and
Car tables (as sets of existing ids, the order core only ever performs
existence lookups on them, spec §3), the Order table in insertion order,
and the persistence layer's id counter. -/
structure Store where
  customers : List String
  cars : List String
  orders : List Order
  nextId : Nat
deriving Repr, DecidableEq

/-- Body of a POST `/` request: `customerId`, `carId`, `startDateTime`,
`endDateTime`, `cep`, optional `status` (spec §4.1 Create). -/
structure CreatePayload where
  customerId : String
  carId : String
  startDateTime : Int
  endDateTime : Int
  cep : String
  status : Option String
deriving Repr, DecidableEq

/-- Body of a PATCH `/:id` request: any subset of the mutable fields
`carId`, `startDateTime`, `endDateTime`, `cep`, `status` (spec §4.1
Update; `customerId` and `id` are not revisable in the documented
contract). -/
structure UpdatePayload where
  carId : Option String
  startDateTime : Option Int
  endDateTime : Option Int
  cep : Option String
  status : Option String
deriving Repr, DecidableEq

/-- The error taxonomy of spec §7. -/
inductive ApiError where
  | ValidationError
  | NotFoundError
  | AuthError
  | PersistenceError
deriving Repr, DecidableEq

/-- Modelled from the spec: `orderCreateValidationSchema` from
`src/validations/orders/OrderValidations.ts` is not in the corpus.  Spec
§3/§4.1: all of `customerId`, `carId`, `cep` required, `endDateTime`
strictly after `startDateTime`, and `status`, when present, one of the
schema's four enumerated values. -/
def createValid (p : CreatePayload) : Bool :=
  p.customerId != "" && p.carId != "" && p.cep != "" &&
  decide (p.startDateTime < p.endDateTime) &&
  (match p.status with
   | none => true
   | some st => statusEnum.contains st)

/-- Modelled from the spec: `orderUpdateValidationSchema` from
`src/validations/orders/OrderValidations.ts` is not in the corpus.  Spec
§4.1 Update: every field optional; supplied strings non-empty, `status`
one of the four enumerated values, and when both timestamps are supplied
the end must be strictly after the start. -/
def updateValid (p : UpdatePayload) : Bool :=
  (match p.carId with
   | none => true
   | some c => c != "") &&
  (match p.cep with
   | none => true
   | some c => c != "") &&
  (match p.status with
   | none => true
   | some st => statusEnum.contains st) &&
  (match p.startDateTime, p.endDateTime with
   | some a, some b => decide (a < b)
   | _, _ => true)

/-- The record stored for a creation payload: a freshly generated id (the
persistence layer's counter), the payload's fields, and `status` defaulted
to the schema's first enumerated value `Aberto` when omitted. -/
def newOrder (s : Store) (p : CreatePayload) : Order :=
  { id := s.nextId
    customerId := p.customerId
    carId := p.carId
    startDateTime := p.startDateTime
    endDateTime := p.endDateTime
    cep := p.cep
    status := p.status.getD "Aberto" }

/-- Modelled from the spec: `CreateOrderController.createOrder` is not in
the corpus.  Spec §4.1 Create: `customerId` and `carId` must resolve to
existing records (else `NotFoundError`); on success a new Order is stored
with a freshly generated id and `status` defaulted to the schema's first
enumerated value `Aberto` when omitted (the swagger example at lines 52-58
shows a default-status order with `status: Aberto`). -/
def createOrder (s : Store) (p : CreatePayload) : Except ApiError (Order × Store) :=
  if s.customers.contains p.customerId then
    if s.cars.contains p.carId then
      Except.ok (newOrder s p,
        { s with orders := s.orders ++ [newOrder s p], nextId := s.nextId + 1 })
    else Except.error ApiError.NotFoundError
  else Except.error ApiError.NotFoundError

/-- Modelled from the spec: `ListOneOrderController.getOrderById` is not
in the corpus.  Spec §4.1 GetById: returns the Order or fails with
`NotFoundError`; no side effects. -/
def getOrderById (s : Store) (i : Nat) : Except ApiError Order :=
  match s.orders.find? (fun o => o.id == i) with
  | some o => Except.ok o
  | none => Except.error ApiError.NotFoundError

/-- Modelled from the spec: `ListOrderController.getOrders` is not in the
corpus.  Spec §4.1 List: the full sequence of Orders in insertion order. -/
def getOrders (s : Store) : List Order := s.orders

/-- Modelled from the spec: `DeleteOrderController.deleteOrder` is not in
the corpus.  Spec §4.1 Delete: the target must exist (else
`NotFoundError`); the record is removed permanently. -/
def deleteOrder (s : Store) (i : Nat) : Except ApiError Store :=
  if s.orders.any (fun o => o.id == i) then
    Except.ok { s with orders := s.orders.filter (fun o => o.id != i) }
  else Except.error ApiError.NotFoundError

/-- Merge a partial update payload into an existing Order: each supplied
field replaces the stored one, each omitted field keeps its stored value;
`id` and `customerId` have no counterpart in the payload and are kept
(spec §4.1 Update). -/
def applyUpdate (o : Order) (p : UpdatePayload) : Order :=
  { o with
    carId := p.carId.getD o.carId
    startDateTime := p.startDateTime.getD o.startDateTime
    endDateTime := p.endDateTime.getD o.endDateTime
    cep := p.cep.getD o.cep
    status := p.status.getD o.status }

/-- Modelled from the spec: `UpdateOrderController.updateOrder` is not in
the corpus.  Spec §4.1 Update: the target must exist (else
`NotFoundError`); only the supplied fields change; the data-model
invariant of §3 (`endDateTime` strictly after `startDateTime`) must hold
for the merged record, a merge violating it is a `ValidationError`. -/
def updateOrder (s : Store) (i : Nat) (p : UpdatePayload) : Except ApiError (Order × Store) :=
  match s.orders.find? (fun o => o.id == i) with
  | none => Except.error ApiError.NotFoundError
  | some o =>
    if (applyUpdate o p).startDateTime < (applyUpdate o p).endDateTime then
      Except.ok (applyUpdate o p,
        { s with orders := s.orders.map (fun x => if x.id == i then applyUpdate o p else x) })
    else Except.error ApiError.ValidationError

/-- HTTP methods used by the order router. -/
inductive Method where
  | GET
  | POST
  | PATCH
  | DELETE
deriving Repr, DecidableEq

/-- The five order controllers imported by
`src/src/routes/orders/order.routes.ts` (lines 3-12). -/
inductive Controller where
  | createOrderC
  | getOrderByIdC
  | deleteOrderC
  | updateOrderC
  | getOrdersC
deriving Repr, DecidableEq

/-- The two celebrate schemas imported from `OrderValidations` (lines 8-11
of the router file). -/
inductive Schema where
  | createSchema
  | updateSchema
deriving Repr, DecidableEq

/-- One element of an Express middleware chain, per spec §9: an ordered
list of guard functions run before the core operation, each capable of
short-circuiting with a typed error. -/
inductive Middleware where
  | celebrate : Schema → Middleware
  | authorize : Middleware
  | handle : Controller → Middleware
deriving Repr, DecidableEq

/-- Body of an incoming request: absent, a parsed create payload, a parsed
update payload, or structurally malformed JSON. -/
inductive Body where
  | empty : Body
  | create : CreatePayload → Body
  | update : UpdatePayload → Body
  | malformed : Body
deriving Repr, DecidableEq

/-- An incoming HTTP request as the order router sees it: an optional
bearer token, a body, and the `:id` path parameter (meaningless for the
two `/` routes). -/
structure Request where
  token : Option String
  body : Body
  paramId : Nat
deriving Repr, DecidableEq

/-- JSON bodies of successful responses: a single Order, an array of
Orders, or no content. -/
inductive ResponseBody where
  | order : Order → ResponseBody
  | orders : List Order → ResponseBody
  | empty : ResponseBody
deriving Repr, DecidableEq

/-- Outcome of handling a request: a success status with a body, or a
failure status with the typed error that caused it (spec §7: every error
is mapped to an HTTP status at the boundary). -/
inductive HttpOutcome where
  | success : Nat → ResponseBody → HttpOutcome
  | failure : Nat → ApiError → HttpOutcome
deriving Repr, DecidableEq

/-- Modelled from the spec: the celebrate middleware (§4.3 validation
collaborator) checks the request body against the route's schema and
short-circuits with a `ValidationError` on failure; the core never
receives a structurally malformed payload. -/
def checkCelebrate (sch : Schema) (r : Request) : Bool :=
  match sch, r.body with
  | Schema.createSchema, Body.create p => createValid p
  | Schema.updateSchema, Body.update p => updateValid p
  | _, _ => false

/-- Modelled from the spec: the `authorize` middleware from
`src/middleware/auth.middleware.ts` (not in the corpus; §4.2
authentication collaborator).  `auth` is the collaborator's token
verifier; a request passes iff it carries a bearer token the verifier
accepts. -/
def checkAuthorize (auth : String → Bool) (r : Request) : Bool :=
  match r.token with
  | some t => auth t
  | none => false

/-- How each typed error surfaces as an HTTP status on each route, per the
table of spec §6 and the swagger comments of the router file: a missing
referenced customer or car on Create is a 400, an absent target on
GetById, Update, Delete is a 404; validation failures are 400, auth
failures 401, storage failures 500. -/
def errorStatus : Controller → ApiError → Nat
  | Controller.createOrderC, ApiError.NotFoundError => 400
  | _, ApiError.NotFoundError => 404
  | _, ApiError.ValidationError => 400
  | _, ApiError.AuthError => 401
  | _, ApiError.PersistenceError => 500

/-- Dispatch to the core operation behind each controller, with the
success status documented in the swagger comments of the router file
(201 for create, 200 for get/update/list, 204 for delete). -/
def runController (c : Controller) (s : Store) (r : Request) :
    Except ApiError (Nat × ResponseBody × Store) :=
  match c with
  | Controller.createOrderC =>
    match r.body with
    | Body.create p => (createOrder s p).map (fun os => (201, ResponseBody.order os.1, os.2))
    | _ => Except.error ApiError.ValidationError
  | Controller.getOrderByIdC =>
    (getOrderById s r.paramId).map (fun o => (200, ResponseBody.order o, s))
  | Controller.deleteOrderC =>
    (deleteOrder s r.paramId).map (fun s2 => (204, ResponseBody.empty, s2))
  | Controller.updateOrderC =>
    match r.body with
    | Body.update p => (updateOrder s r.paramId p).map (fun os => (200, ResponseBody.order os.1, os.2))
    | _ => Except.error ApiError.ValidationError
  | Controller.getOrdersC => Except.ok (200, ResponseBody.orders (getOrders s), s)

/-- Run a middleware chain over a request, as Express does: each guard
either passes the request on or short-circuits with a typed error; the
handler runs the core operation and maps its result to an HTTP outcome.
Returns the outcome together with the store after the call. -/
def runPipeline (auth : String → Bool) (s : Store) (r : Request) :
    List Middleware → HttpOutcome × Store
  | [] => (HttpOutcome.failure 404 ApiError.NotFoundError, s)
  | Middleware.celebrate sch :: rest =>
    if checkCelebrate sch r then runPipeline auth s r rest
    else (HttpOutcome.failure 400 ApiError.ValidationError, s)
  | Middleware.authorize :: rest =>
    if checkAuthorize auth r then runPipeline auth s r rest
    else (HttpOutcome.failure 401 ApiError.AuthError, s)
  | Middleware.handle c :: _ =>
    match runController c s r with
    | Except.ok (code, b, s2) => (HttpOutcome.success code b, s2)
    | Except.error e => (HttpOutcome.failure (errorStatus c e) e, s)

/-- A route definition: method, path pattern, middleware chain. -/
structure RouteDef where
  method : Method
  path : String
  pipeline : List Middleware
deriving Repr, DecidableEq

/-- `router.post('/', celebrate(orderCreateValidationSchema), authorize,
createOrder)` — `src/src/routes/orders/order.routes.ts` lines 100-105. -/
def postRoute : RouteDef :=
  ⟨Method.POST, "/",
   [Middleware.celebrate Schema.createSchema, Middleware.authorize,
    Middleware.handle Controller.createOrderC]⟩

/-- `router.get('/:id', authorize, getOrderById)` — line 137. -/
def getOneRoute : RouteDef :=
  ⟨Method.GET, "/:id", [Middleware.authorize, Middleware.handle Controller.getOrderByIdC]⟩

/-- `router.delete('/:id', authorize, deleteOrder)` — line 165. -/
def deleteRoute : RouteDef :=
  ⟨Method.DELETE, "/:id", [Middleware.authorize, Middleware.handle Controller.deleteOrderC]⟩

/-- `router.patch('/:id', celebrate(orderUpdateValidationSchema),
authorize, updateOrder)` — lines 202-207. -/
def patchRoute : RouteDef :=
  ⟨Method.PATCH, "/:id",
   [Middleware.celebrate Schema.updateSchema, Middleware.authorize,
    Middleware.handle Controller.updateOrderC]⟩

/-- `router.get('/', authorize, getOrders)` — line 229. -/
def listRoute : RouteDef :=
  ⟨Method.GET, "/", [Middleware.authorize, Middleware.handle Controller.getOrdersC]⟩

/-- The whole order router, in registration order. -/
def orderRouter : List RouteDef :=
  [postRoute, getOneRoute, deleteRoute, patchRoute, listRoute]

/-- The mount point of the order router:
`app.use('/api/v1/orders', orderRoutes)` in `src/index.ts` line 30. -/
def mountPath : String := "/api/v1/orders"

/-- An Order's status is one of the schema's enumerated values. -/
def statusOk (o : Order) : Bool := statusEnum.contains o.status

/-- Every stored Order's status is one of the schema's enumerated values. -/
def storeStatusOk (s : Store) : Bool := s.orders.all statusOk

/-- Every stored Order's id is below the persistence layer's counter: the
invariant under which the counter issues fresh ids. -/
def idsFresh (s : Store) : Bool := s.orders.all (fun o => decide (o.id < s.nextId))

theorem getD_getD {α : Type} (a : Option α) (d : α) : a.getD (a.getD d) = a.getD d := by
  cases a <;> rfl

theorem applyUpdate_idem (o : Order) (p : UpdatePayload) :
    applyUpdate (applyUpdate o p) p = applyUpdate o p := by
  simp [applyUpdate, getD_getD]

theorem applyUpdate_id (o : Order) (p : UpdatePayload) : (applyUpdate o p).id = o.id := rfl

theorem applyUpdate_customerId (o : Order) (p : UpdatePayload) :
    (applyUpdate o p).customerId = o.customerId := rfl

theorem find_cons_pos (a : Order) (t : List Order) (i : Nat) (ha : (a.id == i) = true) :
    (a :: t).find? (fun x => x.id == i) = some a := by
  simp only [List.find?, ha]

theorem find_cons_neg (a : Order) (t : List Order) (i : Nat) (ha : (a.id == i) = false) :
    (a :: t).find? (fun x => x.id == i) = t.find? (fun x => x.id == i) := by
  simp only [List.find?, ha]

theorem find_replace (l : List Order) (i : Nat) (o o2 : Order) (h2 : (o2.id == i) = true)
    (h : l.find? (fun x => x.id == i) = some o) :
    (l.map (fun x => if x.id == i then o2 else x)).find? (fun x => x.id == i) = some o2 := by
  induction l with
  | nil => simp at h
  | cons a t ih =>
    rw [List.map_cons]
    cases ha : (a.id == i) with
    | true =>
      rw [if_pos rfl]
      exact find_cons_pos _ _ _ h2
    | false =>
      rw [if_neg Bool.false_ne_true]
      rw [find_cons_neg _ _ _ ha] at h
      rw [find_cons_neg _ _ _ ha]
      exact ih h

theorem map_replace_idem (l : List Order) (i : Nat) (o2 : Order) (h2 : (o2.id == i) = true) :
    (l.map (fun x => if x.id == i then o2 else x)).map (fun x => if x.id == i then o2 else x)
      = l.map (fun x => if x.id == i then o2 else x) := by
  induction l with
  | nil => rfl
  | cons a t ih =>
    rw [List.map_cons]
    by_cases ha : (a.id == i) = true
    · rw [if_pos ha, List.map_cons, if_pos h2, ih]
    · rw [if_neg ha, List.map_cons, if_neg ha, ih]

theorem all_replace (l : List Order) (i : Nat) (o2 : Order) (q : Order → Bool)
    (h2 : q o2 = true) (hall : l.all q = true) :
    (l.map (fun x => if x.id == i then o2 else x)).all q = true := by
  induction l with
  | nil => rfl
  | cons a t ih =>
    simp only [List.all_cons, Bool.and_eq_true] at hall
    rw [List.map_cons, List.all_cons]
    by_cases ha : (a.id == i) = true
    · rw [if_pos ha, h2, ih hall.2, Bool.and_self]
    · rw [if_neg ha, hall.1, ih hall.2, Bool.and_self]

theorem createOrder_eq_ok (s : Store) (p : CreatePayload)
    (hc : s.customers.contains p.customerId = true) (hcar : s.cars.contains p.carId = true) :
    createOrder s p = Except.ok (newOrder s p,
      { s with orders := s.orders ++ [newOrder s p], nextId := s.nextId + 1 }) := by
  unfold createOrder
  rw [if_pos hc, if_pos hcar]

theorem createOrder_eq_err (s : Store) (p : CreatePayload)
    (hm : s.customers.contains p.customerId = false ∨ s.cars.contains p.carId = false) :
    createOrder s p = Except.error ApiError.NotFoundError := by
  unfold createOrder
  rcases hm with hm | hm
  · rw [if_neg (by rw [hm]; exact Bool.false_ne_true)]
  · by_cases h1 : s.customers.contains p.customerId = true
    · rw [if_pos h1, if_neg (by rw [hm]; exact Bool.false_ne_true)]
    · rw [if_neg h1]

theorem getOrderById_eq_none (s : Store) (i : Nat)
    (h : s.orders.find? (fun o => o.id == i) = none) :
    getOrderById s i = Except.error ApiError.NotFoundError := by
  unfold getOrderById
  rw [h]

theorem getOrderById_eq_some (s : Store) (i : Nat) (o : Order)
    (h : s.orders.find? (fun x => x.id == i) = some o) :
    getOrderById s i = Except.ok o := by
  unfold getOrderById
  rw [h]

theorem deleteOrder_eq_ok (s : Store) (i : Nat)
    (h : s.orders.any (fun o => o.id == i) = true) :
    deleteOrder s i = Except.ok { s with orders := s.orders.filter (fun o => o.id != i) } := by
  unfold deleteOrder
  rw [if_pos h]

theorem deleteOrder_eq_err (s : Store) (i : Nat)
    (h : s.orders.any (fun o => o.id == i) = false) :
    deleteOrder s i = Except.error ApiError.NotFoundError := by
  unfold deleteOrder
  rw [if_neg (by rw [h]; exact Bool.false_ne_true)]

theorem updateOrder_eq_none (s : Store) (i : Nat) (p : UpdatePayload)
    (h : s.orders.find? (fun o => o.id == i) = none) :
    updateOrder s i p = Except.error ApiError.NotFoundError := by
  unfold updateOrder
  rw [h]

theorem updateOrder_eq_some (s : Store) (i : Nat) (p : UpdatePayload) (old : Order)
    (h : s.orders.find? (fun o => o.id == i) = some old) :
    updateOrder s i p =
      (if (applyUpdate old p).startDateTime < (applyUpdate old p).endDateTime then
        Except.ok (applyUpdate old p,
          { s with orders := s.orders.map (fun x => if x.id == i then applyUpdate old p else x) })
      else Except.error ApiError.ValidationError) := by
  unfold updateOrder
  rw [h]

theorem createValid_status (p : CreatePayload) (hv : createValid p = true) :
    statusEnum.contains (p.status.getD "Aberto") = true := by
  cases hst : p.status with
  | none => decide
  | some st =>
    unfold createValid at hv
    rw [hst] at hv
    simp only [Bool.and_eq_true] at hv
    exact hv.2

theorem createValid_dates (p : CreatePayload) (hv : createValid p = true) :
    p.startDateTime < p.endDateTime := by
  unfold createValid at hv
  simp only [Bool.and_eq_true] at hv
  exact of_decide_eq_true hv.1.2

theorem updateValid_status (p : UpdatePayload) (hv : updateValid p = true) (st : String)
    (hst : p.status = some st) : statusEnum.contains st = true := by
  unfold updateValid at hv
  rw [hst] at hv
  simp only [Bool.and_eq_true] at hv
  exact hv.1.2

/-- Claim C3: for every creation payload whose customerId or carId does
not resolve to an existing Customer or Car record, Create fails with
NotFoundError, the failure surfaces as HTTP 400 on the POST route, and the
store is unchanged, so no Order is stored. -/
theorem create_missing_reference_not_found (s : Store) (p : CreatePayload)
    (auth : String → Bool) (r : Request)
    (hm : s.customers.contains p.customerId = false ∨ s.cars.contains p.carId = false)
    (hb : r.body = Body.create p) (hv : createValid p = true)
    (ha : checkAuthorize auth r = true) :
    createOrder s p = Except.error ApiError.NotFoundError ∧
    runPipeline auth s r postRoute.pipeline
      = (HttpOutcome.failure 400 ApiError.NotFoundError, s) := by
  have hco := createOrder_eq_err s p hm
  refine ⟨hco, ?_⟩
  simp [runPipeline, postRoute, checkCelebrate, hb, hv, ha, runController, hco, errorStatus,
    Except.map]

/-- Witness for C3: a store with no customers rejects a creation payload
referencing customer "missing" with NotFoundError 400. -/
theorem create_missing_reference_not_found_witness :
    createOrder ⟨[], ["v1"], [], 0⟩ ⟨"missing", "v1", 0, 1, "70040-010", none⟩
      = Except.error ApiError.NotFoundError ∧
    runPipeline (fun t => t == "tok") ⟨[], ["v1"], [], 0⟩
      ⟨some "tok", Body.create ⟨"missing", "v1", 0, 1, "70040-010", none⟩, 0⟩
      postRoute.pipeline
      = (HttpOutcome.failure 400 ApiError.NotFoundError, ⟨[], ["v1"], [], 0⟩) :=
  create_missing_reference_not_found _ _ _ _ (Or.inl (by decide)) rfl (by decide) (by decide)

/-- Counterexample to claim C4 as stated: a Create that omits status
produces an Order whose status is the schema value "Aberto", which is not
the string "Open" the claim names. -/
theorem create_default_status_counterexample :
    (createOrder ⟨["c1"], ["v1"], [], 0⟩ ⟨"c1", "v1", 0, 1, "70040-010", none⟩).toOption.map
      (fun x => x.1.status) = some "Aberto" ∧ ("Aberto" : String) ≠ "Open" :=
  ⟨by decide, by decide⟩

/-- Claim C4 (amended): for every structurally valid creation payload
referencing an existing customer and an existing car, and a store whose id
counter is ahead of every stored Order (the persistence layer's
freshness invariant), Create succeeds, the new Order's id is distinct from
every stored Order's id, its status is "Aberto" (the value the spec
renders as Open) when the payload omits status, and the Order is appended
to the store. -/
theorem create_success_fresh_id_default_status (s : Store) (p : CreatePayload)
    (hv : createValid p = true)
    (hc : s.customers.contains p.customerId = true)
    (hcar : s.cars.contains p.carId = true)
    (hf : idsFresh s = true) :
    ∃ o s2, createOrder s p = Except.ok (o, s2) ∧
      (∀ x ∈ s.orders, x.id ≠ o.id) ∧
      (p.status = none → o.status = "Aberto") ∧
      s2.orders = s.orders ++ [o] := by
  refine ⟨newOrder s p,
    { s with orders := s.orders ++ [newOrder s p], nextId := s.nextId + 1 },
    createOrder_eq_ok s p hc hcar, ?_, ?_, rfl⟩
  · intro x hx
    have hlt := List.all_eq_true.mp hf x hx
    exact Nat.ne_of_lt (of_decide_eq_true hlt)
  · intro hnone
    simp [newOrder, hnone]

/-- Witness for C4: creating an order for existing customer c1 and car v1
with status omitted. -/
theorem create_success_fresh_id_default_status_witness :
    ∃ o s2, createOrder ⟨["c1"], ["v1"], [], 0⟩ ⟨"c1", "v1", 0, 1, "70040-010", none⟩
      = Except.ok (o, s2) ∧
      (∀ x ∈ (⟨["c1"], ["v1"], [], 0⟩ : Store).orders, x.id ≠ o.id) ∧
      ((⟨"c1", "v1", 0, 1, "70040-010", none⟩ : CreatePayload).status = none →
        o.status = "Aberto") ∧
      s2.orders = (⟨["c1"], ["v1"], [], 0⟩ : Store).orders ++ [o] :=
  create_success_fresh_id_default_status _ _ (by decide) (by decide) (by decide) (by decide)

/-- Counterexample to claim C1 as stated: the schema's status enumeration
does not contain "Open" (its four values are the Portuguese strings), and
an Order returned by Create carries a status outside the set
{Open, Approved, Cancelled, Closed} the claim names. -/
theorem status_enum_counterexample :
    statusEnum.contains "Open" = false ∧
    statusEnum ≠ specStatusEnum ∧
    (createOrder ⟨["c2"], ["v2"], [], 0⟩ ⟨"c2", "v2", 0, 1, "70040-010", none⟩).toOption.map
      (fun x => decide (x.1.status ∈ specStatusEnum)) = some false :=
  ⟨by decide, by decide, by decide⟩

/-- Claim C1 (amended): for every Order visible at the public interface,
its status is one of the four enumerated schema values Aberto, Aprovado,
Cancelado, Fechado (rendered Open, Approved, Cancelled, Closed by the
spec): Create and Update only produce and store such statuses on valid
payloads, and GetById, Delete and List preserve and return them. -/
theorem status_enum_preserved :
    (∀ s p o s2, createValid p = true → createOrder s p = Except.ok (o, s2) →
      storeStatusOk s = true → statusOk o = true ∧ storeStatusOk s2 = true) ∧
    (∀ s i p o s2, updateValid p = true → updateOrder s i p = Except.ok (o, s2) →
      storeStatusOk s = true → statusOk o = true ∧ storeStatusOk s2 = true) ∧
    (∀ s i o, getOrderById s i = Except.ok o → storeStatusOk s = true → statusOk o = true) ∧
    (∀ s i s2, deleteOrder s i = Except.ok s2 → storeStatusOk s = true →
      storeStatusOk s2 = true) ∧
    (∀ s, storeStatusOk s = true → (getOrders s).all statusOk = true) := by
  refine ⟨?_, ?_, ?_, ?_, ?_⟩
  · intro s p o s2 hv hco hso
    rw [createOrder_eq_ok s p] at hco
    · simp only [Except.ok.injEq, Prod.mk.injEq] at hco
      obtain ⟨ho, hs2⟩ := hco
      subst ho
      subst hs2
      have hok : statusOk (newOrder s p) = true := createValid_status p hv
      refine ⟨hok, ?_⟩
      simp only [storeStatusOk, List.all_append, Bool.and_eq_true]
      exact ⟨hso, by simp [hok]⟩
    · by_contra hc
      rw [createOrder_eq_err s p (Or.inl (Bool.eq_false_iff.mpr hc))] at hco
      exact Except.noConfusion hco
    · by_contra hc
      rw [createOrder_eq_err s p (Or.inr (Bool.eq_false_iff.mpr hc))] at hco
      exact Except.noConfusion hco
  · intro s i p o s2 hv hco hso
    cases hfind : s.orders.find? (fun x => x.id == i) with
    | none =>
      rw [updateOrder_eq_none s i p hfind] at hco
      exact Except.noConfusion hco
    | some old =>
      rw [updateOrder_eq_some s i p old hfind] at hco
      by_cases hlt : (applyUpdate old p).startDateTime < (applyUpdate old p).endDateTime
      · rw [if_pos hlt] at hco
        simp only [Except.ok.injEq, Prod.mk.injEq] at hco
        obtain ⟨ho, hs2⟩ := hco
        subst ho
        subst hs2
        have hold : statusOk old = true :=
          List.all_eq_true.mp hso old (List.mem_of_find?_eq_some hfind)
        have hok : statusOk (applyUpdate old p) = true := by
          cases hst : p.status with
          | none =>
            simpa only [statusOk, applyUpdate, hst, Option.getD_none] using hold
          | some st =>
            simpa only [statusOk, applyUpdate, hst, Option.getD_some] using
              updateValid_status p hv st hst
        refine ⟨hok, ?_⟩
        exact all_replace s.orders i (applyUpdate old p) statusOk hok hso
      · rw [if_neg hlt] at hco
        exact Except.noConfusion hco
  · intro s i o hco hso
    cases hfind : s.orders.find? (fun x => x.id == i) with
    | none =>
      rw [getOrderById_eq_none s i hfind] at hco
      exact Except.noConfusion hco
    | some old =>
      rw [getOrderById_eq_some s i old hfind] at hco
      obtain rfl : old = o := Except.ok.inj hco
      exact List.all_eq_true.mp hso old (List.mem_of_find?_eq_some hfind)
  · intro s i s2 hco hso
    by_cases hany : s.orders.any (fun o => o.id == i) = true
    · rw [deleteOrder_eq_ok s i hany] at hco
      obtain rfl := Except.ok.inj hco
      simp only [storeStatusOk, List.all_eq_true]
      intro x hx
      exact List.all_eq_true.mp hso x (List.mem_filter.mp hx).1
    · rw [deleteOrder_eq_err s i (Bool.eq_false_iff.mpr hany)] at hco
      exact Except.noConfusion hco
  · intro s hso
    exact hso

/-- Witness for C1: the Order created for customer c1 and car v1 carries a
status from the schema enumeration, and the resulting store only holds
such statuses. -/
theorem status_enum_preserved_witness :
    statusOk ⟨0, "c1", "v1", 0, 1, "70040-010", "Aberto"⟩ = true ∧
    storeStatusOk ⟨["c1"], ["v1"], [⟨0, "c1", "v1", 0, 1, "70040-010", "Aberto"⟩], 1⟩ = true :=
  status_enum_preserved.1 ⟨["c1"], ["v1"], [], 0⟩ ⟨"c1", "v1", 0, 1, "70040-010", none⟩
    ⟨0, "c1", "v1", 0, 1, "70040-010", "Aberto"⟩
    ⟨["c1"], ["v1"], [⟨0, "c1", "v1", 0, 1, "70040-010", "Aberto"⟩], 1⟩
    (by decide) rfl (by decide)

/-- Claim C5: for every id not present in storage, each of GetById, Update
and Delete fails with NotFoundError, each route surfaces it as HTTP 404,
and the store is unchanged by the failing call. -/
theorem absent_id_not_found (s : Store) (i : Nat) (p : UpdatePayload)
    (auth : String → Bool) (r : Request)
    (habs : s.orders.all (fun o => o.id != i) = true)
    (hpid : r.paramId = i) (ha : checkAuthorize auth r = true)
    (hb : r.body = Body.update p) (hv : updateValid p = true) :
    getOrderById s i = Except.error ApiError.NotFoundError ∧
    updateOrder s i p = Except.error ApiError.NotFoundError ∧
    deleteOrder s i = Except.error ApiError.NotFoundError ∧
    runPipeline auth s r getOneRoute.pipeline
      = (HttpOutcome.failure 404 ApiError.NotFoundError, s) ∧
    runPipeline auth s r deleteRoute.pipeline
      = (HttpOutcome.failure 404 ApiError.NotFoundError, s) ∧
    runPipeline auth s r patchRoute.pipeline
      = (HttpOutcome.failure 404 ApiError.NotFoundError, s) := by
  have hfind : s.orders.find? (fun o => o.id == i) = none := by
    rw [List.find?_eq_none]
    intro x hx hc
    have hne := List.all_eq_true.mp habs x hx
    rw [bne_iff_ne] at hne
    rw [beq_iff_eq] at hc
    exact hne hc
  have hany : s.orders.any (fun o => o.id == i) = false := by
    rw [List.any_eq_false]
    intro x hx hc
    have hne := List.all_eq_true.mp habs x hx
    rw [bne_iff_ne] at hne
    rw [beq_iff_eq] at hc
    exact hne hc
  refine ⟨getOrderById_eq_none s i hfind, updateOrder_eq_none s i p hfind,
    deleteOrder_eq_err s i hany, ?_, ?_, ?_⟩
  · simp [runPipeline, getOneRoute, ha, runController, hpid,
      getOrderById_eq_none s i hfind, errorStatus, Except.map]
  · simp [runPipeline, deleteRoute, ha, runController, hpid,
      deleteOrder_eq_err s i hany, errorStatus, Except.map]
  · simp [runPipeline, patchRoute, checkCelebrate, hb, hv, ha, runController, hpid,
      updateOrder_eq_none s i p hfind, errorStatus, Except.map]

/-- Witness for C5: id 7 on an empty store is rejected with 404 on every
route. -/
theorem absent_id_not_found_witness :
    getOrderById ⟨[], [], [], 0⟩ 7 = Except.error ApiError.NotFoundError ∧
    updateOrder ⟨[], [], [], 0⟩ 7 ⟨none, none, none, none, none⟩
      = Except.error ApiError.NotFoundError ∧
    deleteOrder ⟨[], [], [], 0⟩ 7 = Except.error ApiError.NotFoundError ∧
    runPipeline (fun t => t == "tok") ⟨[], [], [], 0⟩
      ⟨some "tok", Body.update ⟨none, none, none, none, none⟩, 7⟩ getOneRoute.pipeline
      = (HttpOutcome.failure 404 ApiError.NotFoundError, ⟨[], [], [], 0⟩) ∧
    runPipeline (fun t => t == "tok") ⟨[], [], [], 0⟩
      ⟨some "tok", Body.update ⟨none, none, none, none, none⟩, 7⟩ deleteRoute.pipeline
      = (HttpOutcome.failure 404 ApiError.NotFoundError, ⟨[], [], [], 0⟩) ∧
    runPipeline (fun t => t == "tok") ⟨[], [], [], 0⟩
      ⟨some "tok", Body.update ⟨none, none, none, none, none⟩, 7⟩ patchRoute.pipeline
      = (HttpOutcome.failure 404 ApiError.NotFoundError, ⟨[], [], [], 0⟩) :=
  absent_id_not_found _ _ _ _ _ (by decide) rfl (by decide) rfl (by decide)

/-- Claim C6: for every existing Order and valid partial update payload,
Update changes only the supplied fields among carId, startDateTime,
endDateTime, cep, status; every unsupplied field keeps its previous value;
id and customerId are never changed; and every other stored Order is
untouched. -/
theorem update_frame (s : Store) (i : Nat) (p : UpdatePayload) (o : Order) (s2 : Store)
    (h : updateOrder s i p = Except.ok (o, s2)) :
    ∃ old, s.orders.find? (fun x => x.id == i) = some old ∧
      o.id = old.id ∧ o.customerId = old.customerId ∧
      (p.carId = none → o.carId = old.carId) ∧
      (∀ v, p.carId = some v → o.carId = v) ∧
      (p.startDateTime = none → o.startDateTime = old.startDateTime) ∧
      (∀ v, p.startDateTime = some v → o.startDateTime = v) ∧
      (p.endDateTime = none → o.endDateTime = old.endDateTime) ∧
      (∀ v, p.endDateTime = some v → o.endDateTime = v) ∧
      (p.cep = none → o.cep = old.cep) ∧
      (∀ v, p.cep = some v → o.cep = v) ∧
      (p.status = none → o.status = old.status) ∧
      (∀ v, p.status = some v → o.status = v) ∧
      (∀ x ∈ s.orders, (x.id == i) = false → x ∈ s2.orders) := by
  cases hfind : s.orders.find? (fun x => x.id == i) with
  | none =>
    rw [updateOrder_eq_none s i p hfind] at h
    exact Except.noConfusion h
  | some old =>
    rw [updateOrder_eq_some s i p old hfind] at h
    by_cases hlt : (applyUpdate old p).startDateTime < (applyUpdate old p).endDateTime
    · rw [if_pos hlt] at h
      simp only [Except.ok.injEq, Prod.mk.injEq] at h
      obtain ⟨ho, hs2⟩ := h
      subst ho
      subst hs2
      refine ⟨old, rfl, rfl, rfl, ?_, ?_, ?_, ?_, ?_, ?_, ?_, ?_, ?_, ?_, ?_⟩
      · intro hn
        simp [applyUpdate, hn]
      · intro v hv
        simp [applyUpdate, hv]
      · intro hn
        simp [applyUpdate, hn]
      · intro v hv
        simp [applyUpdate, hv]
      · intro hn
        simp [applyUpdate, hn]
      · intro v hv
        simp [applyUpdate, hv]
      · intro hn
        simp [applyUpdate, hn]
      · intro v hv
        simp [applyUpdate, hv]
      · intro hn
        simp [applyUpdate, hn]
      · intro v hv
        simp [applyUpdate, hv]
      · intro x hx hxid
        have hmem :=
          List.mem_map_of_mem (fun y => if y.id == i then applyUpdate old p else y) hx
        have hne : ¬ ((x.id == i) = true) := by
          rw [hxid]
          exact Bool.false_ne_true
        dsimp only at hmem
        rw [if_neg hne] at hmem
        exact hmem
    · rw [if_neg hlt] at h
      exact Except.noConfusion h

/-- Witness for C6: patching carId, endDateTime and status of a stored
order. -/
theorem update_frame_witness :
    ∃ old,
      (⟨["c1"], ["v1", "v2"], [⟨0, "c1", "v1", 0, 5, "70040-010", "Aberto"⟩], 1⟩ :
          Store).orders.find? (fun x => x.id == 0) = some old ∧
      (⟨0, "c1", "v2", 0, 9, "70040-010", "Aprovado"⟩ : Order).id = old.id ∧
      (⟨0, "c1", "v2", 0, 9, "70040-010", "Aprovado"⟩ : Order).customerId = old.customerId ∧
      ((⟨some "v2", none, some 9, none, some "Aprovado"⟩ : UpdatePayload).carId = none →
        (⟨0, "c1", "v2", 0, 9, "70040-010", "Aprovado"⟩ : Order).carId = old.carId) ∧
      (∀ v, (⟨some "v2", none, some 9, none, some "Aprovado"⟩ : UpdatePayload).carId = some v →
        (⟨0, "c1", "v2", 0, 9, "70040-010", "Aprovado"⟩ : Order).carId = v) ∧
      ((⟨some "v2", none, some 9, none, some "Aprovado"⟩ : UpdatePayload).startDateTime = none →
        (⟨0, "c1", "v2", 0, 9, "70040-010", "Aprovado"⟩ : Order).startDateTime
          = old.startDateTime) ∧
      (∀ v, (⟨some "v2", none, some 9, none, some "Aprovado"⟩ : UpdatePayload).startDateTime
          = some v →
        (⟨0, "c1", "v2", 0, 9, "70040-010", "Aprovado"⟩ : Order).startDateTime = v) ∧
      ((⟨some "v2", none, some 9, none, some "Aprovado"⟩ : UpdatePayload).endDateTime = none →
        (⟨0, "c1", "v2", 0, 9, "70040-010", "Aprovado"⟩ : Order).endDateTime
          = old.endDateTime) ∧
      (∀ v, (⟨some "v2", none, some 9, none, some "Aprovado"⟩ : UpdatePayload).endDateTime
          = some v →
        (⟨0, "c1", "v2", 0, 9, "70040-010", "Aprovado"⟩ : Order).endDateTime = v) ∧
      ((⟨some "v2", none, some 9, none, some "Aprovado"⟩ : UpdatePayload).cep = none →
        (⟨0, "c1", "v2", 0, 9, "70040-010", "Aprovado"⟩ : Order).cep = old.cep) ∧
      (∀ v, (⟨some "v2", none, some 9, none, some "Aprovado"⟩ : UpdatePayload).cep = some v →
        (⟨0, "c1", "v2", 0, 9, "70040-010", "Aprovado"⟩ : Order).cep = v) ∧
      ((⟨some "v2", none, some 9, none, some "Aprovado"⟩ : UpdatePayload).status = none →
        (⟨0, "c1", "v2", 0, 9, "70040-010", "Aprovado"⟩ : Order).status = old.status) ∧
      (∀ v, (⟨some "v2", none, some 9, none, some "Aprovado"⟩ : UpdatePayload).status = some v →
        (⟨0, "c1", "v2", 0, 9, "70040-010", "Aprovado"⟩ : Order).status = v) ∧
      (∀ x ∈ (⟨["c1"], ["v1", "v2"], [⟨0, "c1", "v1", 0, 5, "70040-010", "Aberto"⟩], 1⟩ :
          Store).orders, (x.id == 0) = false →
        x ∈ (⟨["c1"], ["v1", "v2"], [⟨0, "c1", "v2", 0, 9, "70040-010", "Aprovado"⟩], 1⟩ :
          Store).orders) :=
  update_frame ⟨["c1"], ["v1", "v2"], [⟨0, "c1", "v1", 0, 5, "70040-010", "Aberto"⟩], 1⟩ 0
    ⟨some "v2", none, some 9, none, some "Aprovado"⟩
    ⟨0, "c1", "v2", 0, 9, "70040-010", "Aprovado"⟩
    ⟨["c1"], ["v1", "v2"], [⟨0, "c1", "v2", 0, 9, "70040-010", "Aprovado"⟩], 1⟩ rfl

/-- Claim C7: applying Update with the same payload twice in succession
yields the same resulting Order state as applying it once. -/
theorem update_idempotent (s : Store) (i : Nat) (p : UpdatePayload) (o : Order) (s2 : Store)
    (h : updateOrder s i p = Except.ok (o, s2)) :
    updateOrder s2 i p = Except.ok (o, s2) := by
  cases hfind : s.orders.find? (fun x => x.id == i) with
  | none =>
    rw [updateOrder_eq_none s i p hfind] at h
    exact Except.noConfusion h
  | some old =>
    rw [updateOrder_eq_some s i p old hfind] at h
    by_cases hlt : (applyUpdate old p).startDateTime < (applyUpdate old p).endDateTime
    · rw [if_pos hlt] at h
      simp only [Except.ok.injEq, Prod.mk.injEq] at h
      obtain ⟨ho, hs2⟩ := h
      have hid := List.find?_some hfind
      have hid2 : ((applyUpdate old p).id == i) = true := by
        rw [applyUpdate_id]
        exact hid
      have hfind2 : s2.orders.find? (fun x => x.id == i) = some (applyUpdate old p) := by
        rw [← hs2]
        exact find_replace s.orders i old (applyUpdate old p) hid2 hfind
      rw [updateOrder_eq_some s2 i p (applyUpdate old p) hfind2, applyUpdate_idem]
      rw [if_pos hlt]
      have hmap : s2.orders.map (fun x => if x.id == i then applyUpdate old p else x)
          = s2.orders := by
        rw [← hs2]
        exact map_replace_idem s.orders i (applyUpdate old p) hid2
      rw [hmap, ho]
    · rw [if_neg hlt] at h
      exact Except.noConfusion h

/-- Witness for C7: replaying a status patch on the store it produced. -/
theorem update_idempotent_witness :
    updateOrder ⟨["c1"], ["v1"], [⟨0, "c1", "v1", 0, 5, "70040-010", "Aprovado"⟩], 1⟩ 0
      ⟨none, none, none, none, some "Aprovado"⟩
      = Except.ok (⟨0, "c1", "v1", 0, 5, "70040-010", "Aprovado"⟩,
        ⟨["c1"], ["v1"], [⟨0, "c1", "v1", 0, 5, "70040-010", "Aprovado"⟩], 1⟩) :=
  update_idempotent ⟨["c1"], ["v1"], [⟨0, "c1", "v1", 0, 5, "70040-010", "Aberto"⟩], 1⟩ 0
    ⟨none, none, none, none, some "Aprovado"⟩
    ⟨0, "c1", "v1", 0, 5, "70040-010", "Aprovado"⟩
    ⟨["c1"], ["v1"], [⟨0, "c1", "v1", 0, 5, "70040-010", "Aprovado"⟩], 1⟩ rfl

/-- Claim C9: every Order accepted by Create or Update has endDateTime
strictly after startDateTime; a creation payload with endDateTime equal to
or before startDateTime fails validation, and an update whose merged
record would violate the invariant is rejected with ValidationError. -/
theorem date_interval_strict :
    (∀ p : CreatePayload, p.endDateTime ≤ p.startDateTime → createValid p = false) ∧
    (∀ s p o s2, createValid p = true → createOrder s p = Except.ok (o, s2) →
      o.startDateTime < o.endDateTime) ∧
    (∀ s i p o s2, updateOrder s i p = Except.ok (o, s2) →
      o.startDateTime < o.endDateTime) ∧
    (∀ s i p old, s.orders.find? (fun x => x.id == i) = some old →
      (applyUpdate old p).endDateTime ≤ (applyUpdate old p).startDateTime →
      updateOrder s i p = Except.error ApiError.ValidationError) := by
  refine ⟨?_, ?_, ?_, ?_⟩
  · intro p h
    have hd : decide (p.startDateTime < p.endDateTime) = false :=
      decide_eq_false (not_lt.mpr h)
    unfold createValid
    rw [hd]
    simp
  · intro s p o s2 hv hco
    by_cases h1 : s.customers.contains p.customerId = true
    · by_cases h2 : s.cars.contains p.carId = true
      · rw [createOrder_eq_ok s p h1 h2] at hco
        simp only [Except.ok.injEq, Prod.mk.injEq] at hco
        obtain ⟨ho, h2s⟩ := hco
        subst ho
        exact createValid_dates p hv
      · rw [createOrder_eq_err s p (Or.inr (Bool.eq_false_iff.mpr h2))] at hco
        exact Except.noConfusion hco
    · rw [createOrder_eq_err s p (Or.inl (Bool.eq_false_iff.mpr h1))] at hco
      exact Except.noConfusion hco
  · intro s i p o s2 hco
    cases hfind : s.orders.find? (fun x => x.id == i) with
    | none =>
      rw [updateOrder_eq_none s i p hfind] at hco
      exact Except.noConfusion hco
    | some old =>
      rw [updateOrder_eq_some s i p old hfind] at hco
      by_cases hlt : (applyUpdate old p).startDateTime < (applyUpdate old p).endDateTime
      · rw [if_pos hlt] at hco
        simp only [Except.ok.injEq, Prod.mk.injEq] at hco
        obtain ⟨ho, h2s⟩ := hco
        subst ho
        exact hlt
      · rw [if_neg hlt] at hco
        exact Except.noConfusion hco
  · intro s i p old hfind hle
    rw [updateOrder_eq_some s i p old hfind]
    rw [if_neg (not_lt.mpr hle)]

/-- Witness for C9: a payload with equal start and end is invalid, and a
patch that would move endDateTime before the stored startDateTime is
rejected. -/
theorem date_interval_strict_witness :
    createValid ⟨"c1", "v1", 3, 3, "70040-010", none⟩ = false ∧
    updateOrder ⟨["c1"], ["v1"], [⟨0, "c1", "v1", 0, 5, "70040-010", "Aberto"⟩], 1⟩ 0
      ⟨none, none, some (-1), none, none⟩ = Except.error ApiError.ValidationError :=
  ⟨date_interval_strict.1 ⟨"c1", "v1", 3, 3, "70040-010", none⟩ (by decide),
   date_interval_strict.2.2.2
     ⟨["c1"], ["v1"], [⟨0, "c1", "v1", 0, 5, "70040-010", "Aberto"⟩], 1⟩ 0
     ⟨none, none, some (-1), none, none⟩ ⟨0, "c1", "v1", 0, 5, "70040-010", "Aberto"⟩
     rfl (by decide)⟩

/-- Claim C2: every order route carries the authorize middleware, and a
request without a valid bearer token is rejected before the core operation
runs: the outcome is a 401 AuthError (or a 400 ValidationError when the
schema guard fires first) and the store is unchanged. -/
theorem routes_reject_invalid_token (rt : RouteDef) (hrt : rt ∈ orderRouter)
    (auth : String → Bool) (s : Store) (r : Request)
    (ha : checkAuthorize auth r = false) :
    Middleware.authorize ∈ rt.pipeline ∧
    (runPipeline auth s r rt.pipeline = (HttpOutcome.failure 401 ApiError.AuthError, s) ∨
     runPipeline auth s r rt.pipeline
       = (HttpOutcome.failure 400 ApiError.ValidationError, s)) := by
  simp only [orderRouter, List.mem_cons, List.not_mem_nil, or_false] at hrt
  rcases hrt with rfl | rfl | rfl | rfl | rfl
  · refine ⟨by decide, ?_⟩
    by_cases hc : checkCelebrate Schema.createSchema r = true
    · left
      simp [runPipeline, postRoute, hc, ha]
    · right
      simp [runPipeline, postRoute, hc, ha]
  · exact ⟨by decide, Or.inl (by simp [runPipeline, getOneRoute, ha])⟩
  · exact ⟨by decide, Or.inl (by simp [runPipeline, deleteRoute, ha])⟩
  · refine ⟨by decide, ?_⟩
    by_cases hc : checkCelebrate Schema.updateSchema r = true
    · left
      simp [runPipeline, patchRoute, hc, ha]
    · right
      simp [runPipeline, patchRoute, hc, ha]
  · exact ⟨by decide, Or.inl (by simp [runPipeline, listRoute, ha])⟩

/-- Witness for C2: a tokenless GET of one order is rejected with 401. -/
theorem routes_reject_invalid_token_witness :
    Middleware.authorize ∈ getOneRoute.pipeline ∧
    (runPipeline (fun x => false) ⟨[], [], [], 0⟩ ⟨none, Body.empty, 0⟩ getOneRoute.pipeline
       = (HttpOutcome.failure 401 ApiError.AuthError, ⟨[], [], [], 0⟩) ∨
     runPipeline (fun x => false) ⟨[], [], [], 0⟩ ⟨none, Body.empty, 0⟩ getOneRoute.pipeline
       = (HttpOutcome.failure 400 ApiError.ValidationError, ⟨[], [], [], 0⟩)) :=
  routes_reject_invalid_token getOneRoute (by decide) (fun x => false)
    ⟨[], [], [], 0⟩ ⟨none, Body.empty, 0⟩ (by decide)

/-- Claim C8: under the mount point /api/v1/orders exactly five routes are
exposed — POST / (Create, 201), GET /:id (GetById, 200), DELETE /:id
(Delete, 204 no content), PATCH /:id (Update, 200), GET / (List, 200 with
an array) — each carrying the authorize middleware, and each success runs
the corresponding core operation. -/
theorem router_surface :
    orderRouter.map (fun rt => (rt.method, rt.path)) =
      [(Method.POST, "/"), (Method.GET, "/:id"), (Method.DELETE, "/:id"),
       (Method.PATCH, "/:id"), (Method.GET, "/")] ∧
    mountPath = "/api/v1/orders" ∧
    (∀ rt ∈ orderRouter, Middleware.authorize ∈ rt.pipeline) ∧
    (∀ auth s r p o s2, checkAuthorize auth r = true → r.body = Body.create p →
      createValid p = true → createOrder s p = Except.ok (o, s2) →
      runPipeline auth s r postRoute.pipeline
        = (HttpOutcome.success 201 (ResponseBody.order o), s2)) ∧
    (∀ auth s r o, checkAuthorize auth r = true → getOrderById s r.paramId = Except.ok o →
      runPipeline auth s r getOneRoute.pipeline
        = (HttpOutcome.success 200 (ResponseBody.order o), s)) ∧
    (∀ auth s r s2, checkAuthorize auth r = true → deleteOrder s r.paramId = Except.ok s2 →
      runPipeline auth s r deleteRoute.pipeline
        = (HttpOutcome.success 204 ResponseBody.empty, s2)) ∧
    (∀ auth s r p o s2, checkAuthorize auth r = true → r.body = Body.update p →
      updateValid p = true → updateOrder s r.paramId p = Except.ok (o, s2) →
      runPipeline auth s r patchRoute.pipeline
        = (HttpOutcome.success 200 (ResponseBody.order o), s2)) ∧
    (∀ auth s r, checkAuthorize auth r = true →
      runPipeline auth s r listRoute.pipeline
        = (HttpOutcome.success 200 (ResponseBody.orders (getOrders s)), s)) := by
  refine ⟨rfl, rfl, ?_, ?_, ?_, ?_, ?_, ?_⟩
  · intro rt hrt
    simp only [orderRouter, List.mem_cons, List.not_mem_nil, or_false] at hrt
    rcases hrt with rfl | rfl | rfl | rfl | rfl <;> decide
  · intro auth s r p o s2 ha hb hv hco
    simp [runPipeline, postRoute, checkCelebrate, hb, hv, ha, runController, hco, Except.map]
  · intro auth s r o ha hg
    simp [runPipeline, getOneRoute, ha, runController, hg, Except.map]
  · intro auth s r s2 ha hd
    simp [runPipeline, deleteRoute, ha, runController, hd, Except.map]
  · intro auth s r p o s2 ha hb hv hco
    simp [runPipeline, patchRoute, checkCelebrate, hb, hv, ha, runController, hco, Except.map]
  · intro auth s r ha
    simp [runPipeline, listRoute, ha, runController]

/-- Witness for C8: listing orders on an empty store with a valid token
returns 200 with the stored array. -/
theorem router_surface_witness :
    runPipeline (fun t => t == "tok") ⟨[], [], [], 0⟩ ⟨some "tok", Body.empty, 0⟩
      listRoute.pipeline
      = (HttpOutcome.success 200 (ResponseBody.orders (getOrders ⟨[], [], [], 0⟩)),
         ⟨[], [], [], 0⟩) :=
  router_surface.2.2.2.2.2.2.2 (fun t => t == "tok") ⟨[], [], [], 0⟩
    ⟨some "tok", Body.empty, 0⟩ (by decide)

/-- Claim C10: on POST / and PATCH /:id the celebrate schema guard is the
first middleware, ahead of authorize, so a structurally invalid body is
rejected with a 400 ValidationError for every token, including requests
carrying no valid bearer token. -/
theorem validation_before_auth :
    postRoute.pipeline.head? = some (Middleware.celebrate Schema.createSchema) ∧
    patchRoute.pipeline.head? = some (Middleware.celebrate Schema.updateSchema) ∧
    (∀ auth s r, checkCelebrate Schema.createSchema r = false →
      runPipeline auth s r postRoute.pipeline
        = (HttpOutcome.failure 400 ApiError.ValidationError, s)) ∧
    (∀ auth s r, checkCelebrate Schema.updateSchema r = false →
      runPipeline auth s r patchRoute.pipeline
        = (HttpOutcome.failure 400 ApiError.ValidationError, s)) := by
  refine ⟨rfl, rfl, ?_, ?_⟩
  · intro auth s r hc
    simp [runPipeline, postRoute, hc]
  · intro auth s r hc
    simp [runPipeline, patchRoute, hc]

/-- Witness for C10: a malformed tokenless POST body is rejected with 400
ValidationError, not with an auth error. -/
theorem validation_before_auth_witness :
    runPipeline (fun t => false) ⟨[], [], [], 0⟩ ⟨none, Body.malformed, 0⟩ postRoute.pipeline
      = (HttpOutcome.failure 400 ApiError.ValidationError, ⟨[], [], [], 0⟩) :=
  validation_before_auth.2.2.1 (fun t => false) ⟨[], [], [], 0⟩
    ⟨none, Body.malformed, 0⟩ (by decide)
